import Mathlib

/-!
# vtkHyperTreeGridRepresentation: translucency policy, coloring resolver, texture flags,
representation mode and view requests

A shallow embedding of `Remoting/Views/vtkHyperTreeGridRepresentation.cxx`.

* The representation owns an actor, a property and a mapper.  `SetupDefaults` installs the
  representation's property on the actor and nothing replaces it afterwards, so the model keeps
  one `Property` record and `GetProperty` hands it out as the actor's property.
* Textures are objects shared through pointers: the model keeps a store of texture objects
  indexed by `TexId`, and a `vtkTexture*` is an `Option TexId` (`none` is `nullptr`).
* A `const char*` is an `Option String` (`none` is `nullptr`); the string holds the characters
  before the terminating NUL.
* A `double` is modelled by its exact value (`Double`); the code only compares doubles.
* The view and the output information of `ProcessViewRequest` are a `ViewRequestContext`; the
  base class is outside this file, so the result of `Superclass::ProcessViewRequest` is an
  argument of the model.
-/

namespace HTG

/-! ## Scalars and constants of the toolkit -/

/-- A C++ double by its exact value: a rational, an infinity or NaN. Every finite double is a
rational, so the comparisons below are exact. -/
inductive Double where
  | nan
  | negInf
  | posInf
  | finite (q : ℚ)

/-- The C++ comparison `a < b` on doubles (IEEE 754: false as soon as one side is NaN). -/
def Double.lt : Double → Double → Bool
  | .finite a, .finite b => decide (a < b)
  | .negInf, .finite _ => true
  | .negInf, .posInf => true
  | .finite _, .posInf => true
  | _, _ => false

/-- The C++ comparison `a > b` on doubles. -/
def Double.gt (a b : Double) : Bool := Double.lt b a

def VTK_COLOR_MODE_DEFAULT : Int := 0
def VTK_COLOR_MODE_MAP_SCALARS : Int := 1
def VTK_COLOR_MODE_DIRECT_SCALARS : Int := 2

def VTK_SCALAR_MODE_DEFAULT : Int := 0
def VTK_SCALAR_MODE_USE_CELL_FIELD_DATA : Int := 4
def VTK_SCALAR_MODE_USE_FIELD_DATA : Int := 5

def VTK_WIREFRAME : Int := 1
def VTK_SURFACE : Int := 2

def FIELD_ASSOCIATION_POINTS : Int := 0
def FIELD_ASSOCIATION_CELLS : Int := 1
def FIELD_ASSOCIATION_NONE : Int := 2

/-- Modelled from the spec: the enumerators of `RepresentationTypes`, declared in the class
header; wireframe and surface are the toolkit's draw modes, surface-with-edges is the extra
mode of the representation. -/
def WIREFRAME : Int := VTK_WIREFRAME

/-- Modelled from the spec: see `WIREFRAME`. -/
def SURFACE : Int := VTK_SURFACE

/-- Modelled from the spec: see `WIREFRAME`. -/
def SURFACE_WITH_EDGES : Int := 3

/-! ## Collaborating objects -/

/-- A texture pointer target: an index into the store of texture objects. -/
abbrev TexId := Nat

/-- A data object (the input dataset, a delivered piece), known by its identity; a
`vtkDataObject*` is an `Option DataObject`. -/
abbrev DataObject := Nat

/-- Modelled from the spec: a texture object, with the color-space flag, the three flags the
representation propagates, and the answer of `IsTranslucent()`. -/
structure vtkTexture where
  UseSRGBColorSpace : Bool
  Interpolate : Bool
  Repeat : Bool
  Mipmap : Bool
  IsTranslucent : Int

/-- Modelled from the spec: a lookup table, queried for opacity through `IsOpaque()`. -/
structure vtkScalarsToColors where
  IsOpaque : Int

/-- Modelled from the spec: the drawable-property bag. Setters record their argument;
`Textures` is the texture map (slot name to texture pointer). -/
structure vtkProperty where
  Opacity : Double
  Ambient : Double
  Specular : Double
  Diffuse : Double
  EdgeVisibility : Int
  Representation : Int
  Textures : List (String × TexId)

/-- Modelled from the spec: the actor, with the two force flags, visibility and its texture. -/
structure vtkActor where
  ForceOpaque : Bool
  ForceTranslucent : Bool
  Visibility : Bool
  Texture : Option TexId

/-- Modelled from the spec: the mapper's scalar-coloring configuration. Setters record their
argument. -/
structure vtkOpenGLHyperTreeGridMapper where
  ScalarVisibility : Int
  ArrayName : Option String
  UseLookupTableScalarRange : Int
  UseAdaptiveDecimation : Bool
  ScalarMode : Int
  FieldDataTupleId : Int
  ColorMode : Int
  LookupTable : Option vtkScalarsToColors
  InputDataObject : Option DataObject

/-- The input array information: the two keys the representation reads. `none` means the key
is absent (`Has` is false). -/
structure vtkInformation where
  FIELD_ASSOCIATION : Option Int
  FIELD_NAME : Option String

/-- State of a `vtkHyperTreeGridRepresentation` together with the texture objects it can
reach. `Input` is what `GetInput(0)` returns, `Visibility` the visibility kept by the base
class. -/
structure vtkHyperTreeGridRepresentation where
  Actor : vtkActor
  Property : vtkProperty
  Mapper : vtkOpenGLHyperTreeGridMapper
  TextureObjects : TexId → vtkTexture
  InputArrayInformation : Option vtkInformation
  Representation : Int
  Ambient : Double
  Specular : Double
  Diffuse : Double
  AdaptiveDecimation : Bool
  RepeatTextures : Bool
  InterpolateTextures : Bool
  UseMipmapTextures : Bool
  Input : Option DataObject
  Visibility : Bool

abbrev State := vtkHyperTreeGridRepresentation

/-- The test `p && p[0]` on a `const char*`: non-null and not the empty string. -/
def nonEmptyCString : Option String → Bool
  | some n => decide (n ≠ "")
  | none => false

/-- The call `Actor->GetProperty()`: the property installed by `SetupDefaults`. -/
def GetProperty (s : State) : Option vtkProperty := some s.Property

/-- The call `GetInputArrayInformation(0)`. -/
def GetInputArrayInformation (s : State) : Option vtkInformation := s.InputArrayInformation

/-! ## `GetColorArrayName` and `NeedsOrderedCompositing` -/

/-- Method `vtkHyperTreeGridRepresentation::GetColorArrayName`. -/
def GetColorArrayName (s : State) : Option String :=
  match GetInputArrayInformation s with
  | some info =>
    if info.FIELD_ASSOCIATION.isSome && info.FIELD_NAME.isSome then info.FIELD_NAME else none
  | none => none

/-- Method `vtkHyperTreeGridRepresentation::NeedsOrderedCompositing`. -/
def NeedsOrderedCompositing (s : State) : Bool :=
  if s.Actor.ForceOpaque then false
  else if s.Actor.ForceTranslucent then true
  else if (match GetProperty s with
      | some prop =>
        Double.gt prop.Opacity (.finite 0) && Double.lt prop.Opacity (.finite 1)
      | none => false) then true
  else if (match s.Actor.Texture with
      | some texture => decide ((s.TextureObjects texture).IsTranslucent ≠ 0)
      | none => false) then true
  else if nonEmptyCString (GetColorArrayName s) then
    if s.Mapper.ColorMode = VTK_COLOR_MODE_DIRECT_SCALARS then true
    else
      match s.Mapper.LookupTable with
      | some lut => if lut.IsOpaque = 0 then true else false
      | none => false
  else false

/-! ## Coloring-parameter resolver and representation mode -/

namespace vtkOpenGLHyperTreeGridMapper

def SetScalarVisibility (m : vtkOpenGLHyperTreeGridMapper) (v : Int) :
    vtkOpenGLHyperTreeGridMapper := { m with ScalarVisibility := v }

def SelectColorArray (m : vtkOpenGLHyperTreeGridMapper) (name : Option String) :
    vtkOpenGLHyperTreeGridMapper := { m with ArrayName := name }

def SetUseLookupTableScalarRange (m : vtkOpenGLHyperTreeGridMapper) (v : Int) :
    vtkOpenGLHyperTreeGridMapper := { m with UseLookupTableScalarRange := v }

def SetUseAdaptiveDecimation (m : vtkOpenGLHyperTreeGridMapper) (v : Bool) :
    vtkOpenGLHyperTreeGridMapper := { m with UseAdaptiveDecimation := v }

def SetScalarMode (m : vtkOpenGLHyperTreeGridMapper) (v : Int) :
    vtkOpenGLHyperTreeGridMapper := { m with ScalarMode := v }

def SetFieldDataTupleId (m : vtkOpenGLHyperTreeGridMapper) (v : Int) :
    vtkOpenGLHyperTreeGridMapper := { m with FieldDataTupleId := v }

end vtkOpenGLHyperTreeGridMapper

namespace vtkProperty

def SetAmbient (p : vtkProperty) (v : Double) : vtkProperty := { p with Ambient := v }

def SetSpecular (p : vtkProperty) (v : Double) : vtkProperty := { p with Specular := v }

def SetDiffuse (p : vtkProperty) (v : Double) : vtkProperty := { p with Diffuse := v }

def SetEdgeVisibility (p : vtkProperty) (v : Int) : vtkProperty := { p with EdgeVisibility := v }

def SetRepresentation (p : vtkProperty) (v : Int) : vtkProperty := { p with Representation := v }

/-- Modelled from the spec: attaching a texture to a named slot of the property's texture map;
a null texture clears the slot. -/
def SetTexture (p : vtkProperty) (name : String) (tex : Option TexId) : vtkProperty :=
  match tex with
  | some t => { p with Textures := (name, t) :: p.Textures.filter (fun e => e.1 ≠ name) }
  | none => { p with Textures := p.Textures.filter (fun e => e.1 ≠ name) }

def SetBaseColorTexture (p : vtkProperty) (tex : Option TexId) : vtkProperty :=
  p.SetTexture "albedoTex" tex

def SetEmissiveTexture (p : vtkProperty) (tex : Option TexId) : vtkProperty :=
  p.SetTexture "emissiveTex" tex

def SetORMTexture (p : vtkProperty) (tex : Option TexId) : vtkProperty :=
  p.SetTexture "materialTex" tex

def SetNormalTexture (p : vtkProperty) (tex : Option TexId) : vtkProperty :=
  p.SetTexture "normalTex" tex

/-- The call `GetAllTextures()`: the texture map. -/
def GetAllTextures (p : vtkProperty) : List (String × TexId) := p.Textures

end vtkProperty

/-- The `switch (fieldAssociation)` of `UpdateColoringParameters`: field data with tuple 0 for
`FIELD_ASSOCIATION_NONE`; points, cells and every other value share the cell branch. -/
def switchFieldAssociation (m : vtkOpenGLHyperTreeGridMapper) (fieldAssociation : Int) :
    vtkOpenGLHyperTreeGridMapper :=
  if fieldAssociation = FIELD_ASSOCIATION_NONE then
    (m.SetScalarMode VTK_SCALAR_MODE_USE_FIELD_DATA).SetFieldDataTupleId 0
  else
    m.SetScalarMode VTK_SCALAR_MODE_USE_CELL_FIELD_DATA

/-- First half of `UpdateColoringParameters`: the mapper after the scalar-coloring block,
paired with the local `usingScalarColoring`. -/
def colorByArray (s : State) : vtkOpenGLHyperTreeGridMapper × Bool :=
  match GetInputArrayInformation s with
  | some info =>
    if info.FIELD_ASSOCIATION.isSome && info.FIELD_NAME.isSome then
      let colorArrayName := info.FIELD_NAME
      let fieldAssociation := info.FIELD_ASSOCIATION.getD 0
      if nonEmptyCString colorArrayName then
        let m := s.Mapper.SetScalarVisibility 1
        let m := m.SelectColorArray colorArrayName
        let m := m.SetUseLookupTableScalarRange 1
        let m := m.SetUseAdaptiveDecimation s.AdaptiveDecimation
        (switchFieldAssociation m fieldAssociation, true)
      else (s.Mapper, false)
    else (s.Mapper, false)
  | none => (s.Mapper, false)

/-- Method `vtkHyperTreeGridRepresentation::UpdateColoringParameters`. -/
def UpdateColoringParameters (s : State) : State :=
  let (m, usingScalarColoring) := colorByArray s
  let m := if !usingScalarColoring then (m.SetScalarVisibility 0).SelectColorArray none else m
  let p := s.Property.SetAmbient s.Ambient
  let p := p.SetSpecular s.Specular
  let p := p.SetDiffuse s.Diffuse
  let p :=
    if s.Representation = SURFACE_WITH_EDGES then
      (p.SetEdgeVisibility 1).SetRepresentation VTK_SURFACE
    else
      (p.SetEdgeVisibility 0).SetRepresentation s.Representation
  { s with Mapper := m, Property := p }

/-- C `tolower` in the C locale: only the letters A to Z change. -/
def tolower (c : Char) : Char := c.toLower

/-- Modelled from the spec: the case-insensitive comparison `vtksys::SystemTools::Strucmp` of
the support library, on the characters before the terminator: walk both strings while the
lowered characters agree, return the difference of the first pair that differs (the terminator
counts as 0). The representation only tests the result against 0. -/
def StrucmpChars : List Char → List Char → Int
  | [], [] => 0
  | [], r :: _ => 0 - ((tolower r).toNat : Int)
  | l :: _, [] => ((tolower l).toNat : Int) - 0
  | l :: ls, r :: rs =>
    if tolower l = tolower r then StrucmpChars ls rs
    else ((tolower l).toNat : Int) - ((tolower r).toNat : Int)

/-- Modelled from the spec: `Strucmp` on two C strings. -/
def Strucmp (l r : String) : Int := StrucmpChars l.data r.data

/-- Modelled from the spec: the integer overload `SetRepresentation(int)`, generated in the
class header; it stores the mode. -/
def SetRepresentationInt (s : State) (v : Int) : State := { s with Representation := v }

/-- Method `vtkHyperTreeGridRepresentation::SetRepresentation(const char*)`: the new state and the
error message logged by `vtkErrorMacro`, if any. -/
def SetRepresentation (s : State) (type : String) : State × Option String :=
  if Strucmp type "Wireframe" = 0 then (SetRepresentationInt s WIREFRAME, none)
  else if Strucmp type "Surface" = 0 then (SetRepresentationInt s SURFACE, none)
  else if Strucmp type "Surface With Edges" = 0 then
    (SetRepresentationInt s SURFACE_WITH_EDGES, none)
  else (s, some ("Invalid type: " ++ type))

/-! ## Texture setters and the three texture flags -/

namespace vtkTexture

def UseSRGBColorSpaceOn (t : vtkTexture) : vtkTexture := { t with UseSRGBColorSpace := true }

def UseSRGBColorSpaceOff (t : vtkTexture) : vtkTexture := { t with UseSRGBColorSpace := false }

def SetInterpolate (t : vtkTexture) (v : Bool) : vtkTexture := { t with Interpolate := v }

def SetRepeat (t : vtkTexture) (v : Bool) : vtkTexture := { t with Repeat := v }

def SetMipmap (t : vtkTexture) (v : Bool) : vtkTexture := { t with Mipmap := v }

end vtkTexture

/-- A method call `tex->f(...)` through a texture pointer: the object in the store changes. -/
def onTexture (s : State) (tex : TexId) (f : vtkTexture → vtkTexture) : State :=
  { s with TextureObjects := Function.update s.TextureObjects tex (f (s.TextureObjects tex)) }

/-- Method `vtkHyperTreeGridRepresentation::SetBaseColorTexture`. -/
def SetBaseColorTexture (s : State) (tex : Option TexId) : State :=
  let s1 :=
    match tex with
    | some t =>
      onTexture s t (fun x =>
        (((x.UseSRGBColorSpaceOn).SetInterpolate s.InterpolateTextures).SetRepeat
          s.RepeatTextures).SetMipmap s.UseMipmapTextures)
    | none => s
  { s1 with Property := s1.Property.SetBaseColorTexture tex }

/-- Method `vtkHyperTreeGridRepresentation::SetEmissiveTexture`. -/
def SetEmissiveTexture (s : State) (tex : Option TexId) : State :=
  let s1 :=
    match tex with
    | some t =>
      onTexture s t (fun x =>
        (((x.UseSRGBColorSpaceOn).SetInterpolate s.InterpolateTextures).SetRepeat
          s.RepeatTextures).SetMipmap s.UseMipmapTextures)
    | none => s
  { s1 with Property := s1.Property.SetEmissiveTexture tex }

/-- Method `vtkHyperTreeGridRepresentation::SetMaterialTexture`. -/
def SetMaterialTexture (s : State) (tex : Option TexId) : State :=
  let s1 :=
    match tex with
    | some t =>
      onTexture s t (fun x =>
        (((x.UseSRGBColorSpaceOff).SetInterpolate s.InterpolateTextures).SetRepeat
          s.RepeatTextures).SetMipmap s.UseMipmapTextures)
    | none => s
  { s1 with Property := s1.Property.SetORMTexture tex }

/-- Method `vtkHyperTreeGridRepresentation::SetNormalTexture`. -/
def SetNormalTexture (s : State) (tex : Option TexId) : State :=
  let s1 :=
    match tex with
    | some t =>
      onTexture s t (fun x =>
        (((x.UseSRGBColorSpaceOff).SetInterpolate s.InterpolateTextures).SetRepeat
          s.RepeatTextures).SetMipmap s.UseMipmapTextures)
    | none => s
  { s1 with Property := s1.Property.SetNormalTexture tex }

/-- Method `vtkHyperTreeGridRepresentation::SetTexture`: the actor's texture. -/
def SetTexture (s : State) (val : Option TexId) : State :=
  let s1 := { s with Actor := { s.Actor with Texture := val } }
  match val with
  | some t =>
    onTexture s1 t (fun x =>
      ((x.SetRepeat s.RepeatTextures).SetInterpolate s.InterpolateTextures).SetMipmap
        s.UseMipmapTextures)
  | none => s1

/-- The loop `for (auto t : tex) t.second->f(rep)` over the property's texture map. -/
def forAllTextures (s : State) (f : vtkTexture → vtkTexture) : State :=
  let tex : List (String × TexId) :=
    match GetProperty s with
    | some prop => prop.GetAllTextures
    | none => []
  tex.foldl (fun st t => onTexture st t.2 f) s

/-- Method `vtkHyperTreeGridRepresentation::SetRepeatTextures`. -/
def SetRepeatTextures (s : State) (rep : Bool) : State :=
  let s1 :=
    match s.Actor.Texture with
    | some t => onTexture s t (fun x => x.SetRepeat rep)
    | none => s
  let s2 := forAllTextures s1 (fun x => x.SetRepeat rep)
  { s2 with RepeatTextures := rep }

/-- Method `vtkHyperTreeGridRepresentation::SetInterpolateTextures`. -/
def SetInterpolateTextures (s : State) (rep : Bool) : State :=
  let s1 :=
    match s.Actor.Texture with
    | some t => onTexture s t (fun x => x.SetInterpolate rep)
    | none => s
  let s2 := forAllTextures s1 (fun x => x.SetInterpolate rep)
  { s2 with InterpolateTextures := rep }

/-- Method `vtkHyperTreeGridRepresentation::SetUseMipmapTextures`. -/
def SetUseMipmapTextures (s : State) (rep : Bool) : State :=
  let s1 :=
    match s.Actor.Texture with
    | some t => onTexture s t (fun x => x.SetMipmap rep)
    | none => s
  let s2 := forAllTextures s1 (fun x => x.SetMipmap rep)
  { s2 with UseMipmapTextures := rep }

/-- The representation's texture setters: four property slots and the actor's texture. -/
inductive TextureSetter where
  | baseColor
  | emissive
  | material
  | normal
  | actorTexture

/-- Binding a texture through one of the representation's texture setters. -/
def TextureSetter.bind : TextureSetter → State → Option TexId → State
  | .baseColor => SetBaseColorTexture
  | .emissive => SetEmissiveTexture
  | .material => SetMaterialTexture
  | .normal => SetNormalTexture
  | .actorTexture => SetTexture

/-- The three representation-wide texture flags. -/
inductive TextureFlag where
  | repeatTextures
  | interpolateTextures
  | useMipmapTextures

/-- The toggle of a flag: `SetRepeatTextures`, `SetInterpolateTextures`,
`SetUseMipmapTextures`. -/
def TextureFlag.toggle : TextureFlag → State → Bool → State
  | .repeatTextures => SetRepeatTextures
  | .interpolateTextures => SetInterpolateTextures
  | .useMipmapTextures => SetUseMipmapTextures

/-- The value of a flag on a texture object. -/
def TextureFlag.onObject : TextureFlag → vtkTexture → Bool
  | .repeatTextures, t => t.Repeat
  | .interpolateTextures, t => t.Interpolate
  | .useMipmapTextures, t => t.Mipmap

/-- The representation's current value of a flag. -/
def TextureFlag.current : TextureFlag → State → Bool
  | .repeatTextures, s => s.RepeatTextures
  | .interpolateTextures, s => s.InterpolateTextures
  | .useMipmapTextures, s => s.UseMipmapTextures

/-- The texture is bound: it is the actor's texture or sits in a slot of the property's
texture map. -/
def isBound (s : State) (a : TexId) : Prop :=
  s.Actor.Texture = some a ∨ a ∈ s.Property.Textures.map Prod.snd

/-- Two strings are equal when letter case is ignored (the letters A to Z and a to z, as for
the C locale). -/
def equalIgnoringCase (a b : String) : Prop :=
  a.data.map Char.toLower = b.data.map Char.toLower

/-! ## View requests -/

/-- Modelled from the spec: a request-type tag. The view defines the two phase identifiers
`REQUEST_UPDATE()` and `REQUEST_RENDER()`; every other key is a different tag. -/
inductive vtkInformationRequestKey where
  | REQUEST_UPDATE
  | REQUEST_RENDER
  | other (id : Nat)
  deriving DecidableEq

/-- Modelled from the spec: the flags of the view's ordered-compositing configuration that
the representation passes. -/
inductive OrderedCompositingFlag where
  | DATA_IS_REDISTRIBUTABLE
  | USE_DATA_FOR_LOAD_BALANCING
  deriving DecidableEq

/-- Modelled from the spec: the view-request context of one call, as far as this
representation is concerned. `Piece` is what `SetPiece` published for the representation
(`none`: nothing published), `OrderedCompositingConfiguration` the flags declared (an or of
flags is the list of the flags), `DeliveredPiece` what `GetDeliveredPiece` returns, and
`NEED_ORDERED_COMPOSITING` the key of the output information. -/
structure ViewRequestContext where
  Piece : Option (Option DataObject)
  OrderedCompositingConfiguration : Option (List OrderedCompositingFlag)
  DeliveredPiece : Option DataObject
  NEED_ORDERED_COMPOSITING : Option Int

namespace ViewRequestContext

/-- Modelled from the spec: `vtkPVView::SetPiece(inInfo, this, data)`. -/
def SetPiece (c : ViewRequestContext) (data : Option DataObject) : ViewRequestContext :=
  { c with Piece := some data }

/-- Modelled from the spec: `vtkPVRenderView::SetOrderedCompositingConfiguration`. -/
def SetOrderedCompositingConfiguration (c : ViewRequestContext)
    (flags : List OrderedCompositingFlag) : ViewRequestContext :=
  { c with OrderedCompositingConfiguration := some flags }

/-- Modelled from the spec: `vtkPVView::GetDeliveredPiece(inInfo, this)`. -/
def GetDeliveredPiece (c : ViewRequestContext) : Option DataObject := c.DeliveredPiece

/-- The call `outInfo->Set(vtkPVRenderView::NEED_ORDERED_COMPOSITING(), v)`. -/
def SetNeedOrderedCompositing (c : ViewRequestContext) (v : Int) : ViewRequestContext :=
  { c with NEED_ORDERED_COMPOSITING := some v }

end ViewRequestContext

/-- Modelled from the spec: `Mapper->SetInputDataObject(data)`; the setter records its
argument. -/
def vtkOpenGLHyperTreeGridMapper.SetInputDataObject (m : vtkOpenGLHyperTreeGridMapper)
    (data : Option DataObject) : vtkOpenGLHyperTreeGridMapper :=
  { m with InputDataObject := data }

/-- Method `vtkHyperTreeGridRepresentation::SetVisibility`: the actor's visibility and the
visibility kept by the base class. -/
def SetVisibility (s : State) (val : Bool) : State :=
  { s with Actor := { s.Actor with Visibility := val }, Visibility := val }

/-- Method `vtkHyperTreeGridRepresentation::ProcessViewRequest`. The base class is not part of
this file: `superclassResult` is what `Superclass::ProcessViewRequest` returned for the same
arguments. The result is the return value, the representation and the context after the
call. -/
def ProcessViewRequest (s : State) (superclassResult : Int)
    (request_type : vtkInformationRequestKey) (ctx : ViewRequestContext) :
    Int × State × ViewRequestContext :=
  if superclassResult = 0 then (0, s, ctx)
  else if request_type = vtkInformationRequestKey.REQUEST_UPDATE then
    let ctx := ctx.SetPiece s.Input
    let ctx := ctx.SetOrderedCompositingConfiguration
      [OrderedCompositingFlag.DATA_IS_REDISTRIBUTABLE,
        OrderedCompositingFlag.USE_DATA_FOR_LOAD_BALANCING]
    let ctx := ctx.SetNeedOrderedCompositing (if NeedsOrderedCompositing s then 1 else 0)
    (1, s, ctx)
  else if request_type = vtkInformationRequestKey.REQUEST_RENDER then
    let s := SetVisibility s true
    let data := ctx.GetDeliveredPiece
    let s := { s with Mapper := s.Mapper.SetInputDataObject data }
    let s := UpdateColoringParameters s
    (1, s, ctx)
  else (1, s, ctx)

/-! ## Notions used to state the properties -/

/-- The C string a `const char*` reader finds in a sequence of characters: the characters
before the first NUL. A string without NUL is its own C string. -/
def cString (s : String) : String := String.mk (s.data.takeWhile (fun c => c ≠ Char.ofNat 0))

/-- Modelled from the spec: the texture attached to a named slot of the property's texture
map, if any. -/
def vtkProperty.GetTexture (p : vtkProperty) (name : String) : Option TexId :=
  (p.Textures.find? (fun e => e.1 = name)).map Prod.snd

/-- The setter attached texture `t` to `slot` after giving it the color-space flag `srgb` and
the representation's three flags; no other texture object changed. -/
def attachesWithPolicy (s s2 : State) (t : TexId) (slot : String) (srgb : Bool) : Prop :=
  (s2.TextureObjects t).UseSRGBColorSpace = srgb ∧
    (s2.TextureObjects t).Repeat = s.RepeatTextures ∧
    (s2.TextureObjects t).Interpolate = s.InterpolateTextures ∧
    (s2.TextureObjects t).Mipmap = s.UseMipmapTextures ∧
    s2.Property.GetTexture slot = some t ∧
    ∀ u : TexId, u ≠ t → s2.TextureObjects u = s.TextureObjects u

/-- The setter only cleared `slot`: the slot is empty, every other slot holds what it held, and
nothing outside the property's texture map changed. -/
def onlyClearsSlot (s s2 : State) (slot : String) : Prop :=
  s2.Property.GetTexture slot = none ∧
    (∀ n : String, n ≠ slot → s2.Property.GetTexture n = s.Property.GetTexture n) ∧
    s2 = { s with Property := { s.Property with Textures := s2.Property.Textures } }

/-- The state with another color mode and another lookup table on the mapper. -/
def withColoring (s : State) (colorMode : Int) (lut : Option vtkScalarsToColors) : State :=
  { s with Mapper := { s.Mapper with ColorMode := colorMode, LookupTable := lut } }

/-! ## The translucency policy as the specification words it -/

/-- The property's opacity is strictly between 0 and 1. -/
def opacityStrictlyBetween (s : State) : Prop :=
  ∃ q : ℚ, s.Property.Opacity = .finite q ∧ 0 < q ∧ q < 1

/-- The actor has a texture and that texture reports translucency. -/
def textureReportsTranslucency (s : State) : Prop :=
  ∃ t : TexId, s.Actor.Texture = some t ∧ (s.TextureObjects t).IsTranslucent ≠ 0

/-- The active color array name is non-empty. -/
def activeColorArray (s : State) : Prop :=
  ∃ n : String, GetColorArrayName s = some n ∧ n ≠ ""

/-- The mapper has a lookup table that is not fully opaque. -/
def lookupTableNotOpaque (s : State) : Prop :=
  ∃ lut : vtkScalarsToColors, s.Mapper.LookupTable = some lut ∧ lut.IsOpaque = 0

/-- The lookup table is absent or fully opaque. -/
def lookupTableAbsentOrOpaque (s : State) : Prop :=
  s.Mapper.LookupTable = none ∨
    ∃ lut : vtkScalarsToColors, s.Mapper.LookupTable = some lut ∧ lut.IsOpaque ≠ 0

/-- The translucency policy of the specification: not forced opaque, and at least one of the
contributing factors holds. -/
def translucencyPolicy (s : State) : Prop :=
  s.Actor.ForceOpaque = false ∧
    (s.Actor.ForceTranslucent = true ∨ opacityStrictlyBetween s ∨ textureReportsTranslucency s ∨
      (activeColorArray s ∧
        (s.Mapper.ColorMode = VTK_COLOR_MODE_DIRECT_SCALARS ∨ lookupTableNotOpaque s)))

/-! ## Example states -/

def opaqueTexture : vtkTexture :=
  { UseSRGBColorSpace := false, Interpolate := false, Repeat := false, Mipmap := false,
    IsTranslucent := 0 }

def translucentTexture : vtkTexture :=
  { UseSRGBColorSpace := false, Interpolate := false, Repeat := false, Mipmap := false,
    IsTranslucent := 1 }

/-- A freshly built representation: opaque solid color, no texture, no color array. -/
def initialState : State :=
  { Actor := { ForceOpaque := false, ForceTranslucent := false, Visibility := true,
               Texture := none }
    Property := { Opacity := .finite 1, Ambient := .finite 0, Specular := .finite 0,
                  Diffuse := .finite 1, EdgeVisibility := 0, Representation := VTK_SURFACE,
                  Textures := [] }
    Mapper := { ScalarVisibility := 1, ArrayName := none, UseLookupTableScalarRange := 0,
                UseAdaptiveDecimation := true, ScalarMode := VTK_SCALAR_MODE_DEFAULT,
                FieldDataTupleId := -1, ColorMode := VTK_COLOR_MODE_DEFAULT,
                LookupTable := none, InputDataObject := none }
    TextureObjects := fun _ => opaqueTexture
    InputArrayInformation := none
    Representation := SURFACE
    Ambient := .finite 0
    Specular := .finite 0
    Diffuse := .finite 1
    AdaptiveDecimation := true
    RepeatTextures := false
    InterpolateTextures := false
    UseMipmapTextures := false
    Input := some 0
    Visibility := true }

/-- Input array information naming the cell array "temperature". -/
def temperatureArray : vtkInformation :=
  { FIELD_ASSOCIATION := some FIELD_ASSOCIATION_CELLS, FIELD_NAME := some "temperature" }

/-- Every translucency factor present at once, and the actor forced opaque. -/
def forcedOpaqueState : State :=
  { initialState with
    Actor := { ForceOpaque := true, ForceTranslucent := true, Visibility := true,
               Texture := some 0 }
    Property := { initialState.Property with Opacity := .finite (1 / 2) }
    Mapper := { initialState.Mapper with ColorMode := VTK_COLOR_MODE_DIRECT_SCALARS,
                                         LookupTable := some { IsOpaque := 0 } }
    TextureObjects := fun _ => translucentTexture
    InputArrayInformation := some temperatureArray }

/-- Half-transparent material, nothing else. -/
def halfOpacityState : State :=
  { initialState with Property := { initialState.Property with Opacity := .finite (1 / 2) } }

/-- Direct scalars on "temperature", actor forced opaque. -/
def directScalarsForcedOpaque : State :=
  { initialState with
    Actor := { initialState.Actor with ForceOpaque := true }
    Mapper := { initialState.Mapper with ColorMode := VTK_COLOR_MODE_DIRECT_SCALARS }
    InputArrayInformation := some temperatureArray }

/-- Direct scalars on "temperature" with a fully opaque lookup table. -/
def directScalarsState : State :=
  { initialState with
    Mapper := { initialState.Mapper with ColorMode := VTK_COLOR_MODE_DIRECT_SCALARS,
                                         LookupTable := some { IsOpaque := 1 } }
    InputArrayInformation := some temperatureArray }

/-- Mapped scalars on "temperature" with a fully opaque lookup table. -/
def mappedOpaqueLutState : State :=
  { initialState with
    Mapper := { initialState.Mapper with ColorMode := VTK_COLOR_MODE_MAP_SCALARS,
                                         LookupTable := some { IsOpaque := 1 } }
    InputArrayInformation := some temperatureArray }

/-- Mapped scalars on "temperature" with a lookup table that is not opaque. -/
def mappedTranslucentLutState : State :=
  { initialState with
    Mapper := { initialState.Mapper with ColorMode := VTK_COLOR_MODE_MAP_SCALARS,
                                         LookupTable := some { IsOpaque := 0 } }
    InputArrayInformation := some temperatureArray }

/-- Mapped scalars, a lookup table that is not opaque, and the actor forced opaque. -/
def mappedTranslucentLutForcedOpaque : State :=
  { mappedTranslucentLutState with
    Actor := { initialState.Actor with ForceOpaque := true } }

/-- Mapped scalars, a lookup table that is not opaque, and no color array selected. -/
def mappedTranslucentLutNoArray : State :=
  { mappedTranslucentLutState with InputArrayInformation := none }

/-- Fully transparent material (opacity 0), mapped scalars on "temperature" with a fully
opaque lookup table, and an opaque actor texture. -/
def zeroOpacityMappedState : State :=
  { mappedOpaqueLutState with
    Actor := { initialState.Actor with Texture := some 0 }
    Property := { initialState.Property with Opacity := .finite 0 } }

/-- A representation that was coloring by "temperature" and now receives an empty field name
with point association. -/
def emptyNameState : State :=
  { initialState with
    Mapper := { initialState.Mapper with ScalarVisibility := 1,
                                         ArrayName := some "temperature" }
    InputArrayInformation :=
      some { FIELD_ASSOCIATION := some FIELD_ASSOCIATION_POINTS, FIELD_NAME := some "" } }

/-- Field association "none" together with an empty field name; the mapper still has its
default scalar mode and tuple index. -/
def noneAssociationEmptyName : State :=
  { initialState with
    InputArrayInformation :=
      some { FIELD_ASSOCIATION := some FIELD_ASSOCIATION_NONE, FIELD_NAME := some "" } }

/-- Field association "none" with the field array "time". -/
def noneAssociationTime : State :=
  { initialState with
    InputArrayInformation :=
      some { FIELD_ASSOCIATION := some FIELD_ASSOCIATION_NONE, FIELD_NAME := some "time" } }

/-- An unrecognized field association value (7) with the array "temperature", adaptive
decimation switched off. -/
def unknownAssociationState : State :=
  { initialState with
    AdaptiveDecimation := false
    InputArrayInformation := some { FIELD_ASSOCIATION := some 7, FIELD_NAME := some "temperature" } }

/-- A context in which nothing has been published yet and the view delivers piece 5. -/
def freshContext : ViewRequestContext :=
  { Piece := none, OrderedCompositingConfiguration := none, DeliveredPiece := some 5,
    NEED_ORDERED_COMPOSITING := none }

/-- Half-transparent material on a representation whose input is data object 3. -/
def halfOpacityInput3 : State :=
  { halfOpacityState with Input := some 3 }

/-! ## Lemmas on the translucency decision -/

theorem opacity_test_iff (s : State) :
    (Double.gt s.Property.Opacity (.finite 0) && Double.lt s.Property.Opacity (.finite 1)) = true ↔
      opacityStrictlyBetween s := by
  unfold opacityStrictlyBetween
  cases s.Property.Opacity <;> simp [Double.gt, Double.lt]

theorem nonEmptyCString_iff (p : Option String) :
    nonEmptyCString p = true ↔ ∃ n : String, p = some n ∧ n ≠ "" := by
  cases p <;> simp [nonEmptyCString]

theorem activeColorArray_iff (s : State) :
    nonEmptyCString (GetColorArrayName s) = true ↔ activeColorArray s :=
  nonEmptyCString_iff (GetColorArrayName s)

theorem texture_test_iff (s : State) :
    (match s.Actor.Texture with
      | some texture => decide ((s.TextureObjects texture).IsTranslucent ≠ 0)
      | none => false) = true ↔ textureReportsTranslucency s := by
  unfold textureReportsTranslucency
  cases h : s.Actor.Texture <;> simp

theorem lut_test_iff (s : State) :
    (match s.Mapper.LookupTable with
      | some lut => if lut.IsOpaque = 0 then true else false
      | none => false) = true ↔ lookupTableNotOpaque s := by
  unfold lookupTableNotOpaque
  cases h : s.Mapper.LookupTable <;> simp

/-- The decision of the code is the policy of the specification. -/
theorem needsOrderedCompositing_eq_true_iff (s : State) :
    NeedsOrderedCompositing s = true ↔ translucencyPolicy s := by
  unfold NeedsOrderedCompositing translucencyPolicy
  simp only [GetProperty]
  rw [← opacity_test_iff s, ← texture_test_iff s, ← lut_test_iff s, ← activeColorArray_iff s]
  rcases Bool.eq_false_or_eq_true (Double.gt s.Property.Opacity (.finite 0) &&
    Double.lt s.Property.Opacity (.finite 1)) with ha | ha <;>
  rcases Bool.eq_false_or_eq_true (match s.Actor.Texture with
      | some texture => decide ((s.TextureObjects texture).IsTranslucent ≠ 0)
      | none => false) with hb | hb <;>
  rcases Bool.eq_false_or_eq_true (match s.Mapper.LookupTable with
      | some lut => if lut.IsOpaque = 0 then true else false
      | none => false) with hc | hc <;>
  rcases Bool.eq_false_or_eq_true (nonEmptyCString (GetColorArrayName s)) with hd | hd <;>
  simp only [ha, hb, hc, hd] <;>
  by_cases h : s.Mapper.ColorMode = VTK_COLOR_MODE_DIRECT_SCALARS <;>
  cases s.Actor.ForceOpaque <;> cases s.Actor.ForceTranslucent <;> simp [h]

/-! ## Translucency policy: properties -/

/-- C1: in every state where the actor's force-opaque flag is set, `NeedsOrderedCompositing`
returns false, whatever the force-translucent flag, the opacity, the actor texture, the color
array name, the color mode and the lookup table are. -/
theorem needsOrderedCompositing_forceOpaque (s : State) (h : s.Actor.ForceOpaque = true) :
    NeedsOrderedCompositing s = false := by
  unfold NeedsOrderedCompositing
  rw [if_pos h]

/-- Witness for C1: forced opaque with every translucency factor present. -/
theorem needsOrderedCompositing_forceOpaque_witness :
    forcedOpaqueState.Actor.ForceTranslucent = true ∧
      opacityStrictlyBetween forcedOpaqueState ∧
      textureReportsTranslucency forcedOpaqueState ∧
      activeColorArray forcedOpaqueState ∧
      lookupTableNotOpaque forcedOpaqueState ∧
      NeedsOrderedCompositing forcedOpaqueState = false :=
  ⟨rfl, ⟨1 / 2, rfl, by norm_num, by norm_num⟩, ⟨0, rfl, by decide⟩,
    ⟨"temperature", rfl, by decide⟩, ⟨⟨0⟩, rfl, rfl⟩,
    needsOrderedCompositing_forceOpaque forcedOpaqueState rfl⟩

/-- C2: `NeedsOrderedCompositing` returns true exactly when the actor is not forced opaque and
at least one factor holds (forced translucent; opacity strictly between 0 and 1; a texture that
reports translucency; a non-empty color array name with direct scalars or a lookup table that is
not fully opaque); in every other state it returns false. -/
theorem needsOrderedCompositing_refines_policy (s : State) :
    (NeedsOrderedCompositing s = true ↔ translucencyPolicy s) ∧
      (NeedsOrderedCompositing s = false ↔ ¬ translucencyPolicy s) := by
  refine ⟨needsOrderedCompositing_eq_true_iff s, ?_⟩
  rw [← needsOrderedCompositing_eq_true_iff s]
  cases NeedsOrderedCompositing s <;> simp

/-- C3: with both force flags false, an opacity strictly between 0 and 1 gives true; an
opacity of exactly 0 or exactly 1 gives false when there is no translucent actor texture and
either no active color array, or mapped scalars with an absent or fully opaque lookup table. -/
theorem needsOrderedCompositing_opacity (s : State) (hfo : s.Actor.ForceOpaque = false)
    (hft : s.Actor.ForceTranslucent = false) :
    (opacityStrictlyBetween s → NeedsOrderedCompositing s = true) ∧
      ((s.Property.Opacity = .finite 0 ∨ s.Property.Opacity = .finite 1) →
        ¬ textureReportsTranslucency s →
        (¬ activeColorArray s ∨
          (s.Mapper.ColorMode = VTK_COLOR_MODE_MAP_SCALARS ∧ lookupTableAbsentOrOpaque s)) →
        NeedsOrderedCompositing s = false) := by
  constructor
  · intro ho
    exact (needsOrderedCompositing_eq_true_iff s).mpr ⟨hfo, Or.inr (Or.inl ho)⟩
  · intro hop htex hcol
    rw [Bool.eq_false_iff]
    intro hn
    obtain ⟨_, hft2 | ⟨q, hq, h0, h1⟩ | htex2 | ⟨hact, hmode | ⟨lut, hlut, hz⟩⟩⟩ :=
      (needsOrderedCompositing_eq_true_iff s).mp hn
    · rw [hft] at hft2
      exact Bool.noConfusion hft2
    · rcases hop with hop | hop <;> rw [hq] at hop <;> injection hop with hop <;>
        subst hop
      · exact lt_irrefl _ h0
      · exact lt_irrefl _ h1
    · exact htex htex2
    · rcases hcol with hcol | ⟨hm, _⟩
      · exact hcol hact
      · rw [hm] at hmode
        exact absurd hmode (by decide)
    · rcases hcol with hcol | ⟨_, hnone | ⟨lut2, hlut2, hnz⟩⟩
      · exact hcol hact
      · rw [hnone] at hlut
        exact Option.noConfusion hlut
      · rw [hlut2] at hlut
        injection hlut with hlut
        subst hlut
        exact hnz hz

/-- Witness for C3: opacity 1/2 alone gives true; opacity 0 with an opaque texture and mapped
scalars through an opaque lookup table gives false. -/
theorem needsOrderedCompositing_opacity_witness :
    NeedsOrderedCompositing halfOpacityState = true ∧
      NeedsOrderedCompositing zeroOpacityMappedState = false :=
  ⟨(needsOrderedCompositing_opacity halfOpacityState rfl rfl).1
      ⟨1 / 2, rfl, by norm_num, by norm_num⟩,
    (needsOrderedCompositing_opacity zeroOpacityMappedState rfl rfl).2 (Or.inl rfl)
      (fun ⟨_, _, ht⟩ => ht rfl)
      (Or.inr ⟨rfl, Or.inr ⟨⟨1⟩, rfl, by decide⟩⟩)⟩

/-- C4 as stated fails: direct scalars on the non-empty array name "temperature", yet the
decision is false because the actor is forced opaque. -/
theorem directScalars_forceOpaque_counterexample :
    directScalarsForcedOpaque.Mapper.ColorMode = VTK_COLOR_MODE_DIRECT_SCALARS ∧
      activeColorArray directScalarsForcedOpaque ∧
      NeedsOrderedCompositing directScalarsForcedOpaque = false :=
  ⟨rfl, ⟨"temperature", rfl, by decide⟩, rfl⟩

/-- C4 (amended): when the actor is not forced opaque, the color mode is direct scalars and the
active color array name is non-empty, `NeedsOrderedCompositing` returns true, whether the lookup
table is absent, fully opaque or not opaque. -/
theorem needsOrderedCompositing_directScalars (s : State)
    (hfo : s.Actor.ForceOpaque = false)
    (hmode : s.Mapper.ColorMode = VTK_COLOR_MODE_DIRECT_SCALARS)
    (hname : activeColorArray s) :
    NeedsOrderedCompositing s = true :=
  (needsOrderedCompositing_eq_true_iff s).mpr
    ⟨hfo, Or.inr (Or.inr (Or.inr ⟨hname, Or.inl hmode⟩))⟩

/-- Witness for C4 (amended): direct scalars on "temperature" with a fully opaque lookup
table. -/
theorem needsOrderedCompositing_directScalars_witness :
    lookupTableAbsentOrOpaque directScalarsState ∧
      NeedsOrderedCompositing directScalarsState = true :=
  ⟨Or.inr ⟨⟨1⟩, rfl, by decide⟩,
    needsOrderedCompositing_directScalars directScalarsState rfl rfl
      ⟨"temperature", rfl, by decide⟩⟩

/-- C5 as stated fails: mapped scalars with a lookup table that is not fully opaque, yet the
decision is false, once because the actor is forced opaque and once because no color array is
active. -/
theorem mappedScalars_translucentLut_counterexample :
    (mappedTranslucentLutForcedOpaque.Mapper.ColorMode = VTK_COLOR_MODE_MAP_SCALARS ∧
      lookupTableNotOpaque mappedTranslucentLutForcedOpaque ∧
      NeedsOrderedCompositing mappedTranslucentLutForcedOpaque = false) ∧
    (mappedTranslucentLutNoArray.Mapper.ColorMode = VTK_COLOR_MODE_MAP_SCALARS ∧
      lookupTableNotOpaque mappedTranslucentLutNoArray ∧
      mappedTranslucentLutNoArray.Actor.ForceOpaque = false ∧
      NeedsOrderedCompositing mappedTranslucentLutNoArray = false) :=
  ⟨⟨rfl, ⟨⟨0⟩, rfl, rfl⟩, rfl⟩, ⟨rfl, ⟨⟨0⟩, rfl, rfl⟩, rfl, rfl⟩⟩

/-- C5 (amended): with mapped scalars, a fully opaque lookup table and no other factor (not
forced translucent, opacity not strictly between 0 and 1, no translucent actor texture) give
false; a lookup table that is not fully opaque gives true when the actor is not forced opaque
and the active color array name is non-empty. -/
theorem needsOrderedCompositing_mappedScalars (s : State)
    (hmode : s.Mapper.ColorMode = VTK_COLOR_MODE_MAP_SCALARS) :
    ((∃ lut : vtkScalarsToColors, s.Mapper.LookupTable = some lut ∧ lut.IsOpaque ≠ 0) →
        s.Actor.ForceTranslucent = false → ¬ opacityStrictlyBetween s →
        ¬ textureReportsTranslucency s → NeedsOrderedCompositing s = false) ∧
      (lookupTableNotOpaque s → s.Actor.ForceOpaque = false → activeColorArray s →
        NeedsOrderedCompositing s = true) := by
  constructor
  · rintro ⟨lut, hlut, hnz⟩ hft hop htex
    rw [Bool.eq_false_iff]
    intro hn
    obtain ⟨_, hft2 | hop2 | htex2 | ⟨_, hdirect | ⟨lut2, hlut2, hz⟩⟩⟩ :=
      (needsOrderedCompositing_eq_true_iff s).mp hn
    · rw [hft] at hft2
      exact Bool.noConfusion hft2
    · exact hop hop2
    · exact htex htex2
    · rw [hmode] at hdirect
      exact absurd hdirect (by decide)
    · rw [hlut] at hlut2
      injection hlut2 with hlut2
      subst hlut2
      exact hnz hz
  · intro hlut hfo hname
    exact (needsOrderedCompositing_eq_true_iff s).mpr
      ⟨hfo, Or.inr (Or.inr (Or.inr ⟨hname, Or.inr hlut⟩))⟩

/-- Witness for C5 (amended): an opaque lookup table gives false, a translucent one true. -/
theorem needsOrderedCompositing_mappedScalars_witness :
    NeedsOrderedCompositing mappedOpaqueLutState = false ∧
      NeedsOrderedCompositing mappedTranslucentLutState = true :=
  ⟨(needsOrderedCompositing_mappedScalars mappedOpaqueLutState rfl).1
      ⟨⟨1⟩, rfl, by decide⟩ rfl
      (fun ⟨q, hq, _, h1⟩ => by
        injection hq with hq
        rw [← hq] at h1
        exact lt_irrefl _ h1)
      (fun ⟨_, ht, _⟩ => Option.noConfusion ht),
    (needsOrderedCompositing_mappedScalars mappedTranslucentLutState rfl).2
      ⟨⟨0⟩, rfl, rfl⟩ rfl ⟨"temperature", rfl, by decide⟩⟩

/-! ## Coloring-parameter resolver: properties -/

/-- C6: for every field association value (present with any integer, or absent), when the
input array information carries an empty or absent field name, `UpdateColoringParameters`
leaves the mapper with scalar visibility 0 and the color array selection cleared. -/
theorem updateColoringParameters_emptyName (s : State) (assoc : Option Int)
    (name : Option String)
    (hinfo : s.InputArrayInformation = some { FIELD_ASSOCIATION := assoc, FIELD_NAME := name })
    (hname : name = none ∨ name = some "") :
    (UpdateColoringParameters s).Mapper.ScalarVisibility = 0 ∧
      (UpdateColoringParameters s).Mapper.ArrayName = none := by
  have hc : colorByArray s = (s.Mapper, false) := by
    unfold colorByArray GetInputArrayInformation
    rw [hinfo]
    rcases hname with h | h <;> subst h <;> simp [nonEmptyCString]
  simp [UpdateColoringParameters, hc, vtkOpenGLHyperTreeGridMapper.SetScalarVisibility,
    vtkOpenGLHyperTreeGridMapper.SelectColorArray]

/-- Witness for C6: point association, empty name, on a mapper that was coloring by
"temperature". -/
theorem updateColoringParameters_emptyName_witness :
    emptyNameState.Mapper.ScalarVisibility = 1 ∧
      emptyNameState.Mapper.ArrayName = some "temperature" ∧
      (UpdateColoringParameters emptyNameState).Mapper.ScalarVisibility = 0 ∧
      (UpdateColoringParameters emptyNameState).Mapper.ArrayName = none :=
  ⟨rfl, rfl,
    updateColoringParameters_emptyName emptyNameState (some FIELD_ASSOCIATION_POINTS) (some "")
      rfl (Or.inr rfl)⟩

/-- C7 as stated fails: with field association "none" and an empty field name the scalar mode
and the tuple index keep their former values (here the defaults 0 and -1). -/
theorem noneAssociation_emptyName_counterexample :
    GetInputArrayInformation noneAssociationEmptyName =
        some { FIELD_ASSOCIATION := some FIELD_ASSOCIATION_NONE, FIELD_NAME := some "" } ∧
      (UpdateColoringParameters noneAssociationEmptyName).Mapper.ScalarMode =
        VTK_SCALAR_MODE_DEFAULT ∧
      (UpdateColoringParameters noneAssociationEmptyName).Mapper.ScalarMode ≠
        VTK_SCALAR_MODE_USE_FIELD_DATA ∧
      (UpdateColoringParameters noneAssociationEmptyName).Mapper.FieldDataTupleId = -1 :=
  ⟨rfl, rfl, by decide, rfl⟩

/-- C7 (amended): whenever the input array information has field association "none" and a
non-empty field name, `UpdateColoringParameters` leaves the mapper in field-data scalar mode
with tuple index 0 selected. -/
theorem updateColoringParameters_noneAssociation (s : State) (n : String) (hn : n ≠ "")
    (hinfo : s.InputArrayInformation =
      some { FIELD_ASSOCIATION := some FIELD_ASSOCIATION_NONE, FIELD_NAME := some n }) :
    (UpdateColoringParameters s).Mapper.ScalarMode = VTK_SCALAR_MODE_USE_FIELD_DATA ∧
      (UpdateColoringParameters s).Mapper.FieldDataTupleId = 0 := by
  simp [UpdateColoringParameters, colorByArray, GetInputArrayInformation, hinfo,
    nonEmptyCString, hn, switchFieldAssociation,
    vtkOpenGLHyperTreeGridMapper.SetScalarMode,
    vtkOpenGLHyperTreeGridMapper.SetFieldDataTupleId]

/-- Witness for C7 (amended): field association "none" with the array "time". -/
theorem updateColoringParameters_noneAssociation_witness :
    (UpdateColoringParameters noneAssociationTime).Mapper.ScalarMode =
        VTK_SCALAR_MODE_USE_FIELD_DATA ∧
      (UpdateColoringParameters noneAssociationTime).Mapper.FieldDataTupleId = 0 :=
  updateColoringParameters_noneAssociation noneAssociationTime "time" (by decide) rfl

/-- C8: for every non-empty color array name `n` and every field association value other than
"none", `UpdateColoringParameters` leaves the mapper with scalar visibility 1, array `n`
selected, use-lookup-table-scalar-range 1, the adaptive-decimation flag equal to the
representation's `AdaptiveDecimation`, and scalar mode `VTK_SCALAR_MODE_USE_CELL_FIELD_DATA`. -/
theorem updateColoringParameters_cellColoring (s : State) (n : String) (a : Int)
    (hn : n ≠ "") (ha : a ≠ FIELD_ASSOCIATION_NONE)
    (hinfo : s.InputArrayInformation =
      some { FIELD_ASSOCIATION := some a, FIELD_NAME := some n }) :
    (UpdateColoringParameters s).Mapper.ScalarVisibility = 1 ∧
      (UpdateColoringParameters s).Mapper.ArrayName = some n ∧
      (UpdateColoringParameters s).Mapper.UseLookupTableScalarRange = 1 ∧
      (UpdateColoringParameters s).Mapper.UseAdaptiveDecimation = s.AdaptiveDecimation ∧
      (UpdateColoringParameters s).Mapper.ScalarMode = VTK_SCALAR_MODE_USE_CELL_FIELD_DATA := by
  simp [UpdateColoringParameters, colorByArray, GetInputArrayInformation, hinfo,
    nonEmptyCString, hn, ha, switchFieldAssociation,
    vtkOpenGLHyperTreeGridMapper.SetScalarMode,
    vtkOpenGLHyperTreeGridMapper.SetScalarVisibility,
    vtkOpenGLHyperTreeGridMapper.SelectColorArray,
    vtkOpenGLHyperTreeGridMapper.SetUseLookupTableScalarRange,
    vtkOpenGLHyperTreeGridMapper.SetUseAdaptiveDecimation]

/-- Witness for C8: the unrecognized association value 7 with the array "temperature" and
adaptive decimation off. -/
theorem updateColoringParameters_cellColoring_witness :
    (UpdateColoringParameters unknownAssociationState).Mapper.ScalarVisibility = 1 ∧
      (UpdateColoringParameters unknownAssociationState).Mapper.ArrayName =
        some "temperature" ∧
      (UpdateColoringParameters unknownAssociationState).Mapper.UseLookupTableScalarRange = 1 ∧
      (UpdateColoringParameters unknownAssociationState).Mapper.UseAdaptiveDecimation = false ∧
      (UpdateColoringParameters unknownAssociationState).Mapper.ScalarMode =
        VTK_SCALAR_MODE_USE_CELL_FIELD_DATA :=
  updateColoringParameters_cellColoring unknownAssociationState "temperature" 7 (by decide)
    (by decide) rfl

/-! ## Texture flags -/

theorem onTexture_same (s : State) (a : TexId) (g : vtkTexture → vtkTexture) :
    (onTexture s a g).TextureObjects a = g (s.TextureObjects a) := by
  simp [onTexture]

theorem onTexture_other (s : State) (a b : TexId) (g : vtkTexture → vtkTexture) (h : a ≠ b) :
    (onTexture s b g).TextureObjects a = s.TextureObjects a := by
  simp [onTexture, Function.update_noteq h]

/-- The loop over a texture map establishes `P` on every texture of the map and keeps it on
every other texture, when the method applied always establishes `P`. -/
theorem foldl_onTexture_establishes (g : vtkTexture → vtkTexture) (P : vtkTexture → Prop)
    (hg : ∀ t, P (g t)) (a : TexId) :
    ∀ (l : List (String × TexId)) (s : State),
      (P (s.TextureObjects a) ∨ a ∈ l.map Prod.snd) →
      P ((l.foldl (fun st t => onTexture st t.2 g) s).TextureObjects a) := by
  intro l
  induction l with
  | nil =>
    intro s h
    rcases h with h | h
    · exact h
    · simp at h
  | cons x l ih =>
    intro s h
    rw [List.foldl_cons]
    apply ih
    by_cases hax : a = x.2
    · left
      rw [hax, onTexture_same]
      exact hg _
    · rw [onTexture_other s a x.2 g hax]
      rcases h with h | h
      · exact Or.inl h
      · right
        rw [List.map_cons, List.mem_cons] at h
        rcases h with h | h
        · exact absurd h hax
        · exact h

/-- After a texture setter is called with a non-null texture, that texture is bound. -/
theorem bind_isBound (k : TextureSetter) (s : State) (a : TexId) :
    isBound (k.bind s (some a)) a := by
  cases k <;>
    simp [isBound, TextureSetter.bind, SetBaseColorTexture, SetEmissiveTexture,
      SetMaterialTexture, SetNormalTexture, SetTexture, onTexture,
      vtkProperty.SetBaseColorTexture, vtkProperty.SetEmissiveTexture,
      vtkProperty.SetORMTexture, vtkProperty.SetNormalTexture, vtkProperty.SetTexture]

/-- A texture setter gives the texture the representation's current flag values. -/
theorem bind_flag_same (k : TextureSetter) (f : TextureFlag) (s : State) (b : TexId) :
    f.onObject ((k.bind s (some b)).TextureObjects b) = f.current s := by
  cases k <;> cases f <;>
    simp [TextureSetter.bind, SetBaseColorTexture, SetEmissiveTexture,
      SetMaterialTexture, SetNormalTexture, SetTexture, onTexture, TextureFlag.onObject,
      TextureFlag.current, vtkTexture.SetRepeat, vtkTexture.SetInterpolate,
      vtkTexture.SetMipmap, vtkTexture.UseSRGBColorSpaceOn, vtkTexture.UseSRGBColorSpaceOff]

/-- A texture setter leaves every other texture object alone. -/
theorem bind_other (k : TextureSetter) (s : State) (a b : TexId) (h : a ≠ b) :
    (k.bind s (some b)).TextureObjects a = s.TextureObjects a := by
  cases k <;>
    simp [TextureSetter.bind, SetBaseColorTexture, SetEmissiveTexture,
      SetMaterialTexture, SetNormalTexture, SetTexture, onTexture, Function.update_noteq h]

/-- A toggle records the new value as the representation's current flag value. -/
theorem toggle_current (f : TextureFlag) (s : State) (v : Bool) :
    f.current (f.toggle s v) = v := by
  cases f <;> rfl

/-- The body shared by the three toggles: the method is applied to the actor's texture and
to every texture of the property's texture map, so what it establishes holds on every bound
texture. -/
theorem toggle_body_establishes (g : vtkTexture → vtkTexture) (P : vtkTexture → Prop)
    (hg : ∀ t, P (g t)) (s : State) (a : TexId) (h : isBound s a) :
    P ((forAllTextures
      (match s.Actor.Texture with
        | some t => onTexture s t g
        | none => s) g).TextureObjects a) := by
  simp only [forAllTextures, GetProperty, vtkProperty.GetAllTextures]
  refine foldl_onTexture_establishes g P hg a _ _ ?_
  rcases h with h | h
  · left
    rw [h]
    simp only [onTexture_same]
    exact hg _
  · right
    cases hs : s.Actor.Texture <;> simpa [onTexture] using h

/-- A toggle puts the new value on every bound texture. -/
theorem toggle_bound (f : TextureFlag) (s : State) (v : Bool) (a : TexId)
    (h : isBound s a) : f.onObject ((f.toggle s v).TextureObjects a) = v := by
  cases f
  · exact toggle_body_establishes (fun x => x.SetRepeat v)
      (fun t => TextureFlag.onObject .repeatTextures t = v) (fun _ => rfl) s a h
  · exact toggle_body_establishes (fun x => x.SetInterpolate v)
      (fun t => TextureFlag.onObject .interpolateTextures t = v) (fun _ => rfl) s a h
  · exact toggle_body_establishes (fun x => x.SetMipmap v)
      (fun t => TextureFlag.onObject .useMipmapTextures t = v) (fun _ => rfl) s a h

/-- C9: for each of the three flags and every value `v`: bind texture `a` through any
representation texture setter, call the flag's toggle with `v`, bind texture `b` through any
representation texture setter; then both `a` and `b` carry the flag value `v`. -/
theorem toggle_retrofits_bound_textures (f : TextureFlag) (k1 k2 : TextureSetter) (s : State)
    (a b : TexId) (v : Bool) :
    f.onObject ((k2.bind (f.toggle (k1.bind s (some a)) v) (some b)).TextureObjects a) = v ∧
      f.onObject ((k2.bind (f.toggle (k1.bind s (some a)) v) (some b)).TextureObjects b) = v := by
  have hb : f.onObject
      ((k2.bind (f.toggle (k1.bind s (some a)) v) (some b)).TextureObjects b) = v := by
    rw [bind_flag_same, toggle_current]
  refine ⟨?_, hb⟩
  by_cases hab : a = b
  · rw [hab]
    rw [hab] at hb
    exact hb
  · rw [bind_other _ _ a b hab]
    exact toggle_bound f _ v a (bind_isBound k1 s a)

/-! ## Representation mode -/

/-- The comparison `Strucmp` reads its left argument only through `tolower`. -/
theorem StrucmpChars_congr_left :
    ∀ (l l2 r : List Char), l.map Char.toLower = l2.map Char.toLower →
      StrucmpChars l r = StrucmpChars l2 r := by
  intro l
  induction l with
  | nil =>
    intro l2 r h
    cases l2 with
    | nil => rfl
    | cons d ds => simp at h
  | cons c cs ih =>
    intro l2 r h
    cases l2 with
    | nil => simp at h
    | cons d ds =>
      simp only [List.map_cons, List.cons.injEq] at h
      cases r with
      | nil => simp [StrucmpChars, tolower, h.1]
      | cons e es => simp [StrucmpChars, tolower, h.1, ih ds es h.2]

/-- A name equal to "Surface With Edges" up to letter case reaches the third branch. -/
theorem Strucmp_surfaceWithEdges (type : String)
    (h : equalIgnoringCase type "Surface With Edges") :
    Strucmp type "Wireframe" ≠ 0 ∧ Strucmp type "Surface" ≠ 0 ∧
      Strucmp type "Surface With Edges" = 0 := by
  unfold Strucmp
  rw [StrucmpChars_congr_left _ _ "Wireframe".data h,
    StrucmpChars_congr_left _ _ "Surface".data h,
    StrucmpChars_congr_left _ _ "Surface With Edges".data h]
  decide

/-- C10: for every string equal to "Surface With Edges" when letter case is ignored,
`SetRepresentation` selects the surface-with-edges mode (and logs no error), so that
`UpdateColoringParameters` then sets the property's edge visibility on and its draw mode to
`VTK_SURFACE`. -/
theorem setRepresentation_surfaceWithEdges (s : State) (type : String)
    (h : equalIgnoringCase type "Surface With Edges") :
    (SetRepresentation s type).1.Representation = SURFACE_WITH_EDGES ∧
      (SetRepresentation s type).2 = none ∧
      (UpdateColoringParameters (SetRepresentation s type).1).Property.EdgeVisibility = 1 ∧
      (UpdateColoringParameters (SetRepresentation s type).1).Property.Representation =
        VTK_SURFACE := by
  obtain ⟨h1, h2, h3⟩ := Strucmp_surfaceWithEdges type h
  have hs : SetRepresentation s type = (SetRepresentationInt s SURFACE_WITH_EDGES, none) := by
    unfold SetRepresentation
    rw [if_neg h1, if_neg h2, if_pos h3]
  rw [hs]
  simp [UpdateColoringParameters, SetRepresentationInt, vtkProperty.SetEdgeVisibility,
    vtkProperty.SetRepresentation, vtkProperty.SetAmbient, vtkProperty.SetSpecular,
    vtkProperty.SetDiffuse]

/-- Witness for C10: the name in mixed case, on a representation in surface mode. -/
theorem setRepresentation_surfaceWithEdges_witness :
    initialState.Representation = SURFACE ∧
      (SetRepresentation initialState "SURFACE with eDGES").1.Representation =
        SURFACE_WITH_EDGES ∧
      (SetRepresentation initialState "SURFACE with eDGES").2 = none ∧
      (UpdateColoringParameters
        (SetRepresentation initialState "SURFACE with eDGES").1).Property.EdgeVisibility = 1 ∧
      (UpdateColoringParameters
        (SetRepresentation initialState "SURFACE with eDGES").1).Property.Representation =
        VTK_SURFACE :=
  ⟨rfl, setRepresentation_surfaceWithEdges initialState "SURFACE with eDGES" (by
    unfold equalIgnoringCase
    decide)⟩

/-! ## Unknown representation names -/

theorem char_eq_of_toNat_eq (a b : Char) (h : a.toNat = b.toNat) : a = b := by
  rw [← Char.ofNat_toNat a, ← Char.ofNat_toNat b, h]

/-- Only NUL is lowered to NUL. -/
theorem toLower_toNat_eq_zero (c : Char) (h : c.toLower.toNat = 0) : c.toNat = 0 := by
  unfold Char.toLower at h
  simp only at h
  split at h
  · rename_i hr
    unfold Char.ofNat at h
    split at h
    · change c.toNat + 32 = 0 at h
      omega
    · rename_i hv
      exfalso
      apply hv
      unfold Nat.isValidChar
      omega
  · exact h

/-- Against a right argument without NUL, `Strucmp` returns 0 only when the C string on the
left equals the right argument up to letter case. -/
theorem StrucmpChars_eq_zero :
    ∀ (l r : List Char), (∀ e ∈ r, e.toNat ≠ 0) → StrucmpChars l r = 0 →
      (l.takeWhile (fun c => c ≠ Char.ofNat 0)).map Char.toLower = r.map Char.toLower := by
  intro l
  induction l with
  | nil =>
    intro r hr h
    cases r with
    | nil => rfl
    | cons e es =>
      exfalso
      have he : (tolower e).toNat = 0 := by
        simp only [StrucmpChars] at h
        omega
      exact hr e (List.mem_cons_self e es) (toLower_toNat_eq_zero e he)
  | cons c cs ih =>
    intro r hr h
    cases r with
    | nil =>
      have hc : (tolower c).toNat = 0 := by
        simp only [StrucmpChars] at h
        omega
      have hc0 : c = Char.ofNat 0 :=
        char_eq_of_toNat_eq c (Char.ofNat 0) (toLower_toNat_eq_zero c hc)
      simp [List.takeWhile, hc0]
    | cons e es =>
      have he : e.toNat ≠ 0 := hr e (List.mem_cons_self e es)
      simp only [StrucmpChars] at h
      by_cases hce : tolower c = tolower e
      · rw [if_pos hce] at h
        have hc : c ≠ Char.ofNat 0 := by
          intro hc0
          apply he
          apply toLower_toNat_eq_zero
          unfold tolower at hce
          rw [← hce, hc0]
          rfl
        have htail := ih es (fun x hx => hr x (List.mem_cons_of_mem e hx)) h
        unfold tolower at hce
        have hd : decide (c ≠ Char.ofNat 0) = true := decide_eq_true hc
        rw [List.takeWhile_cons, hd, if_pos rfl, List.map_cons, List.map_cons, hce, htail]
      · rw [if_neg hce] at h
        exfalso
        apply hce
        apply char_eq_of_toNat_eq
        omega

/-- When the C string of `type` differs from `name` (a name without NUL) up to letter case,
the comparison of the code does not return 0. -/
theorem Strucmp_ne_zero (type name : String) (hname : ∀ e ∈ name.data, e.toNat ≠ 0)
    (h : ¬ equalIgnoringCase (cString type) name) : Strucmp type name ≠ 0 := by
  intro h0
  apply h
  unfold equalIgnoringCase cString
  exact StrucmpChars_eq_zero type.data name.data hname h0

/-- C11: for every string that equals none of "Wireframe", "Surface" and "Surface With Edges"
when letter case is ignored, `SetRepresentation` returns (no exception), logs an error, and
leaves the whole state unchanged: the representation mode, the mapper, the actor and the
property. -/
theorem setRepresentation_invalid (s : State) (type : String)
    (h1 : ¬ equalIgnoringCase (cString type) "Wireframe")
    (h2 : ¬ equalIgnoringCase (cString type) "Surface")
    (h3 : ¬ equalIgnoringCase (cString type) "Surface With Edges") :
    (SetRepresentation s type).1 = s ∧
      (SetRepresentation s type).2 = some ("Invalid type: " ++ type) := by
  have c1 := Strucmp_ne_zero type "Wireframe" (by decide) h1
  have c2 := Strucmp_ne_zero type "Surface" (by decide) h2
  have c3 := Strucmp_ne_zero type "Surface With Edges" (by decide) h3
  unfold SetRepresentation
  rw [if_neg c1, if_neg c2, if_neg c3]
  exact ⟨rfl, rfl⟩

/-- Witness for C11: "Points" is not a mode of this representation; the surface-with-edges
representation stays as it was. -/
theorem setRepresentation_invalid_witness :
    ((SetRepresentation (SetRepresentationInt initialState SURFACE_WITH_EDGES) "Points").1 =
        SetRepresentationInt initialState SURFACE_WITH_EDGES ∧
      (SetRepresentation (SetRepresentationInt initialState SURFACE_WITH_EDGES) "Points").2 =
        some ("Invalid type: " ++ "Points")) ∧
      (SetRepresentation (SetRepresentationInt initialState SURFACE_WITH_EDGES)
        "Points").1.Representation = SURFACE_WITH_EDGES :=
  ⟨setRepresentation_invalid (SetRepresentationInt initialState SURFACE_WITH_EDGES) "Points"
      (by unfold equalIgnoringCase cString; decide)
      (by unfold equalIgnoringCase cString; decide)
      (by unfold equalIgnoringCase cString; decide),
    by
      rw [(setRepresentation_invalid (SetRepresentationInt initialState SURFACE_WITH_EDGES)
        "Points"
        (by unfold equalIgnoringCase cString; decide)
        (by unfold equalIgnoringCase cString; decide)
        (by unfold equalIgnoringCase cString; decide)).1]
      rfl⟩

/-! ## View requests: properties -/

/-- C12: for every request type, when the base class's check fails
(`Superclass::ProcessViewRequest` returned 0), `ProcessViewRequest` returns 0 and has no effect
of its own: the context (published piece, compositing configuration, output information) and
the representation (actor visibility, mapper input, coloring parameters) are what they
were. -/
theorem processViewRequest_base_fails (s : State) (request_type : vtkInformationRequestKey)
    (ctx : ViewRequestContext) :
    (ProcessViewRequest s 0 request_type ctx).1 = 0 ∧
      (ProcessViewRequest s 0 request_type ctx).2.1 = s ∧
      (ProcessViewRequest s 0 request_type ctx).2.2 = ctx := by
  unfold ProcessViewRequest
  rw [if_pos rfl]
  exact ⟨rfl, rfl, rfl⟩

/-- C13: when the base check passes and the request is `REQUEST_UPDATE`, `ProcessViewRequest`
returns 1; the context then holds the current input as the published piece, the flags
redistributable and usable for load balancing, and the need-ordered-compositing value 1 if
`NeedsOrderedCompositing` is true in the current state and 0 otherwise; the representation,
hence the actor's visibility and the mapper's input, is unchanged. -/
theorem processViewRequest_update (s : State) (superclassResult : Int)
    (ctx : ViewRequestContext) (hbase : superclassResult ≠ 0) :
    (ProcessViewRequest s superclassResult .REQUEST_UPDATE ctx).1 = 1 ∧
      (ProcessViewRequest s superclassResult .REQUEST_UPDATE ctx).2.2.Piece = some s.Input ∧
      (ProcessViewRequest s superclassResult
        .REQUEST_UPDATE ctx).2.2.OrderedCompositingConfiguration =
        some [.DATA_IS_REDISTRIBUTABLE, .USE_DATA_FOR_LOAD_BALANCING] ∧
      (NeedsOrderedCompositing s = true →
        (ProcessViewRequest s superclassResult
          .REQUEST_UPDATE ctx).2.2.NEED_ORDERED_COMPOSITING = some 1) ∧
      (NeedsOrderedCompositing s = false →
        (ProcessViewRequest s superclassResult
          .REQUEST_UPDATE ctx).2.2.NEED_ORDERED_COMPOSITING = some 0) ∧
      (ProcessViewRequest s superclassResult .REQUEST_UPDATE ctx).2.1 = s ∧
      (ProcessViewRequest s superclassResult .REQUEST_UPDATE ctx).2.1.Actor.Visibility =
        s.Actor.Visibility ∧
      (ProcessViewRequest s superclassResult .REQUEST_UPDATE ctx).2.1.Mapper.InputDataObject =
        s.Mapper.InputDataObject := by
  unfold ProcessViewRequest
  rw [if_neg hbase, if_pos rfl]
  refine ⟨rfl, rfl, rfl, ?_, ?_, rfl, rfl, rfl⟩
  · intro h
    simp [ViewRequestContext.SetNeedOrderedCompositing, h]
  · intro h
    simp [ViewRequestContext.SetNeedOrderedCompositing, h]

/-- Witness for C13: a half-transparent representation with input 3 and an invisible actor;
the update pass publishes input 3 and the value 1 and leaves the actor invisible. -/
theorem processViewRequest_update_witness :
    (ProcessViewRequest (SetVisibility halfOpacityInput3 false) 1
        .REQUEST_UPDATE freshContext).1 = 1 ∧
      (ProcessViewRequest (SetVisibility halfOpacityInput3 false) 1
        .REQUEST_UPDATE freshContext).2.2.Piece = some (some 3) ∧
      (ProcessViewRequest (SetVisibility halfOpacityInput3 false) 1
        .REQUEST_UPDATE freshContext).2.2.NEED_ORDERED_COMPOSITING = some 1 ∧
      (ProcessViewRequest (SetVisibility halfOpacityInput3 false) 1
        .REQUEST_UPDATE freshContext).2.1.Actor.Visibility = false :=
  have h := processViewRequest_update (SetVisibility halfOpacityInput3 false) 1 freshContext
    (by decide)
  ⟨h.1, h.2.1,
    h.2.2.2.1 ((needsOrderedCompositing_eq_true_iff _).mpr
      ⟨rfl, Or.inr (Or.inl ⟨1 / 2, rfl, by norm_num, by norm_num⟩)⟩),
    h.2.2.2.2.2.2.1⟩

/-- C15: when the base check passes and the request type is neither `REQUEST_UPDATE` nor
`REQUEST_RENDER`, `ProcessViewRequest` returns 1 and does nothing: no piece is published,
nothing is written to the output information, and the actor, the mapper and the property are
unchanged. -/
theorem processViewRequest_other (s : State) (superclassResult : Int)
    (request_type : vtkInformationRequestKey) (ctx : ViewRequestContext)
    (hbase : superclassResult ≠ 0)
    (hu : request_type ≠ .REQUEST_UPDATE) (hr : request_type ≠ .REQUEST_RENDER) :
    (ProcessViewRequest s superclassResult request_type ctx).1 = 1 ∧
      (ProcessViewRequest s superclassResult request_type ctx).2.1 = s ∧
      (ProcessViewRequest s superclassResult request_type ctx).2.2 = ctx := by
  unfold ProcessViewRequest
  rw [if_neg hbase, if_neg hu, if_neg hr]
  exact ⟨rfl, rfl, rfl⟩

/-- Witness for C15: an unrecognized request key on a fresh context. -/
theorem processViewRequest_other_witness :
    (ProcessViewRequest halfOpacityInput3 1 (.other 7) freshContext).1 = 1 ∧
      (ProcessViewRequest halfOpacityInput3 1 (.other 7) freshContext).2.1 =
        halfOpacityInput3 ∧
      (ProcessViewRequest halfOpacityInput3 1 (.other 7) freshContext).2.2 = freshContext :=
  processViewRequest_other halfOpacityInput3 1 (.other 7) freshContext (by decide)
    (by decide) (by decide)

/-! ## Texture setters: the fixed policy -/

/-- After a texture is attached to a slot, the slot holds it. -/
theorem getTexture_setTexture_some (p : vtkProperty) (name : String) (t : TexId) :
    (p.SetTexture name (some t)).GetTexture name = some t := by
  simp [vtkProperty.SetTexture, vtkProperty.GetTexture]

/-- After a slot is cleared, it is empty. -/
theorem getTexture_setTexture_none (p : vtkProperty) (name : String) :
    (p.SetTexture name none).GetTexture name = none := by
  simp [vtkProperty.SetTexture, vtkProperty.GetTexture, List.find?_eq_none, List.mem_filter]

/-- Removing the entries of one slot does not change what a search for another slot finds. -/
theorem find_filter_other (name n : String) (h : n ≠ name) :
    ∀ l : List (String × TexId),
      (l.filter (fun e => decide (e.1 ≠ name))).find? (fun e => decide (e.1 = n)) =
        l.find? (fun e => decide (e.1 = n)) := by
  intro l
  induction l with
  | nil => rfl
  | cons x l ih =>
    by_cases hx : x.1 = name
    · have hxn : ¬ x.1 = n := fun h2 => h (h2.symm.trans hx)
      have hf : ¬ (decide (x.1 ≠ name) = true) := by simp [hx]
      have hg : ¬ (decide (x.1 = n) = true) := by simp [hxn]
      rw [List.filter_cons_of_neg (p := fun e : String × TexId => decide (e.1 ≠ name)) hf,
        List.find?_cons_of_neg (p := fun e : String × TexId => decide (e.1 = n)) l hg, ih]
    · have hf : decide (x.1 ≠ name) = true := by simp [hx]
      rw [List.filter_cons_of_pos (p := fun e : String × TexId => decide (e.1 ≠ name)) hf]
      by_cases hxn : x.1 = n
      · have hg : decide (x.1 = n) = true := by simp [hxn]
        rw [List.find?_cons_of_pos (p := fun e : String × TexId => decide (e.1 = n)) _ hg,
          List.find?_cons_of_pos (p := fun e : String × TexId => decide (e.1 = n)) _ hg]
      · have hg : ¬ (decide (x.1 = n) = true) := by simp [hxn]
        rw [List.find?_cons_of_neg (p := fun e : String × TexId => decide (e.1 = n)) _ hg,
          List.find?_cons_of_neg (p := fun e : String × TexId => decide (e.1 = n)) _ hg, ih]

/-- Clearing a slot leaves the other slots alone. -/
theorem getTexture_setTexture_none_other (p : vtkProperty) (name n : String) (h : n ≠ name) :
    (p.SetTexture name none).GetTexture n = p.GetTexture n := by
  simp only [vtkProperty.SetTexture, vtkProperty.GetTexture]
  rw [find_filter_other name n h]

/-- C14: for every non-null texture `t` and every state of the three flags,
`SetBaseColorTexture` and `SetEmissiveTexture` turn the sRGB flag of `t` on,
`SetMaterialTexture` and `SetNormalTexture` turn it off, and each of the four gives `t` the
representation's current repeat, interpolate and mipmap values and attaches it to its slot;
with a null texture each setter only clears its slot. -/
theorem textureSetters_policy (s : State) (t : TexId) :
    (attachesWithPolicy s (SetBaseColorTexture s (some t)) t "albedoTex" true ∧
      attachesWithPolicy s (SetEmissiveTexture s (some t)) t "emissiveTex" true ∧
      attachesWithPolicy s (SetMaterialTexture s (some t)) t "materialTex" false ∧
      attachesWithPolicy s (SetNormalTexture s (some t)) t "normalTex" false) ∧
    (onlyClearsSlot s (SetBaseColorTexture s none) "albedoTex" ∧
      onlyClearsSlot s (SetEmissiveTexture s none) "emissiveTex" ∧
      onlyClearsSlot s (SetMaterialTexture s none) "materialTex" ∧
      onlyClearsSlot s (SetNormalTexture s none) "normalTex") := by
  refine ⟨⟨?_, ?_, ?_, ?_⟩, ⟨?_, ?_, ?_, ?_⟩⟩
  · refine ⟨?_, ?_, ?_, ?_, getTexture_setTexture_some _ _ t, ?_⟩
    · simp [SetBaseColorTexture, onTexture, vtkTexture.SetMipmap, vtkTexture.SetRepeat,
        vtkTexture.SetInterpolate, vtkTexture.UseSRGBColorSpaceOn]
    · simp [SetBaseColorTexture, onTexture, vtkTexture.SetMipmap, vtkTexture.SetRepeat,
        vtkTexture.SetInterpolate, vtkTexture.UseSRGBColorSpaceOn]
    · simp [SetBaseColorTexture, onTexture, vtkTexture.SetMipmap, vtkTexture.SetRepeat,
        vtkTexture.SetInterpolate, vtkTexture.UseSRGBColorSpaceOn]
    · simp [SetBaseColorTexture, onTexture, vtkTexture.SetMipmap, vtkTexture.SetRepeat,
        vtkTexture.SetInterpolate, vtkTexture.UseSRGBColorSpaceOn]
    · intro u hu
      simp [SetBaseColorTexture, onTexture, Function.update_noteq hu]
  · refine ⟨?_, ?_, ?_, ?_, getTexture_setTexture_some _ _ t, ?_⟩
    · simp [SetEmissiveTexture, onTexture, vtkTexture.SetMipmap, vtkTexture.SetRepeat,
        vtkTexture.SetInterpolate, vtkTexture.UseSRGBColorSpaceOn]
    · simp [SetEmissiveTexture, onTexture, vtkTexture.SetMipmap, vtkTexture.SetRepeat,
        vtkTexture.SetInterpolate, vtkTexture.UseSRGBColorSpaceOn]
    · simp [SetEmissiveTexture, onTexture, vtkTexture.SetMipmap, vtkTexture.SetRepeat,
        vtkTexture.SetInterpolate, vtkTexture.UseSRGBColorSpaceOn]
    · simp [SetEmissiveTexture, onTexture, vtkTexture.SetMipmap, vtkTexture.SetRepeat,
        vtkTexture.SetInterpolate, vtkTexture.UseSRGBColorSpaceOn]
    · intro u hu
      simp [SetEmissiveTexture, onTexture, Function.update_noteq hu]
  · refine ⟨?_, ?_, ?_, ?_, getTexture_setTexture_some _ _ t, ?_⟩
    · simp [SetMaterialTexture, onTexture, vtkTexture.SetMipmap, vtkTexture.SetRepeat,
        vtkTexture.SetInterpolate, vtkTexture.UseSRGBColorSpaceOff]
    · simp [SetMaterialTexture, onTexture, vtkTexture.SetMipmap, vtkTexture.SetRepeat,
        vtkTexture.SetInterpolate, vtkTexture.UseSRGBColorSpaceOff]
    · simp [SetMaterialTexture, onTexture, vtkTexture.SetMipmap, vtkTexture.SetRepeat,
        vtkTexture.SetInterpolate, vtkTexture.UseSRGBColorSpaceOff]
    · simp [SetMaterialTexture, onTexture, vtkTexture.SetMipmap, vtkTexture.SetRepeat,
        vtkTexture.SetInterpolate, vtkTexture.UseSRGBColorSpaceOff]
    · intro u hu
      simp [SetMaterialTexture, onTexture, Function.update_noteq hu]
  · refine ⟨?_, ?_, ?_, ?_, getTexture_setTexture_some _ _ t, ?_⟩
    · simp [SetNormalTexture, onTexture, vtkTexture.SetMipmap, vtkTexture.SetRepeat,
        vtkTexture.SetInterpolate, vtkTexture.UseSRGBColorSpaceOff]
    · simp [SetNormalTexture, onTexture, vtkTexture.SetMipmap, vtkTexture.SetRepeat,
        vtkTexture.SetInterpolate, vtkTexture.UseSRGBColorSpaceOff]
    · simp [SetNormalTexture, onTexture, vtkTexture.SetMipmap, vtkTexture.SetRepeat,
        vtkTexture.SetInterpolate, vtkTexture.UseSRGBColorSpaceOff]
    · simp [SetNormalTexture, onTexture, vtkTexture.SetMipmap, vtkTexture.SetRepeat,
        vtkTexture.SetInterpolate, vtkTexture.UseSRGBColorSpaceOff]
    · intro u hu
      simp [SetNormalTexture, onTexture, Function.update_noteq hu]
  · exact ⟨getTexture_setTexture_none _ _,
      fun n hn => getTexture_setTexture_none_other _ _ n hn, rfl⟩
  · exact ⟨getTexture_setTexture_none _ _,
      fun n hn => getTexture_setTexture_none_other _ _ n hn, rfl⟩
  · exact ⟨getTexture_setTexture_none _ _,
      fun n hn => getTexture_setTexture_none_other _ _ n hn, rfl⟩
  · exact ⟨getTexture_setTexture_none _ _,
      fun n hn => getTexture_setTexture_none_other _ _ n hn, rfl⟩

/-! ## Agreement of the coloring resolver and the translucency policy -/

/-- The scalar mode switch does not touch scalar visibility. -/
theorem switchFieldAssociation_scalarVisibility (m : vtkOpenGLHyperTreeGridMapper)
    (a : Int) : (switchFieldAssociation m a).ScalarVisibility = m.ScalarVisibility := by
  unfold switchFieldAssociation
  split <;> rfl

/-- The scalar-coloring block uses scalar coloring exactly when the color array name is
non-null and non-empty, and then enables scalar visibility. -/
theorem colorByArray_spec (s : State) :
    (colorByArray s).2 = nonEmptyCString (GetColorArrayName s) ∧
      ((colorByArray s).2 = true → (colorByArray s).1.ScalarVisibility = 1) := by
  unfold colorByArray GetColorArrayName GetInputArrayInformation
  cases s.InputArrayInformation with
  | none => exact ⟨rfl, fun h => Bool.noConfusion h⟩
  | some info =>
    rcases info with ⟨a, n⟩
    cases a with
    | none => exact ⟨rfl, fun h => Bool.noConfusion h⟩
    | some a =>
      cases n with
      | none => exact ⟨rfl, fun h => Bool.noConfusion h⟩
      | some n =>
        by_cases hn : n = ""
        · subst hn
          exact ⟨rfl, fun h => Bool.noConfusion h⟩
        · have hne : nonEmptyCString (some n) = true := by simp [nonEmptyCString, hn]
          simp only [Option.isSome_some, Bool.and_self, if_true, hne]
          refine ⟨trivial, fun _ => ?_⟩
          rw [switchFieldAssociation_scalarVisibility]
          rfl

/-- Scalar visibility after `UpdateColoringParameters` is 1 when the color array name is
non-null and non-empty, and 0 otherwise. -/
theorem updateColoringParameters_scalarVisibility (s : State) :
    (UpdateColoringParameters s).Mapper.ScalarVisibility =
      if nonEmptyCString (GetColorArrayName s) = true then 1 else 0 := by
  obtain ⟨h2, h1⟩ := colorByArray_spec s
  unfold UpdateColoringParameters
  rcases hc : colorByArray s with ⟨m, u⟩
  rw [hc] at h1 h2
  simp only at h1 h2
  rw [← h2]
  cases u with
  | false => rfl
  | true => simpa using h1 rfl

/-- What `UpdateColoringParameters` leaves alone among the inputs of the translucency
decision: the actor, the texture objects, the input array information and the opacity. -/
theorem updateColoringParameters_frame (s : State) :
    (UpdateColoringParameters s).Actor = s.Actor ∧
      (UpdateColoringParameters s).TextureObjects = s.TextureObjects ∧
      (UpdateColoringParameters s).InputArrayInformation = s.InputArrayInformation ∧
      (UpdateColoringParameters s).Property.Opacity = s.Property.Opacity := by
  unfold UpdateColoringParameters
  rcases colorByArray s with ⟨m, u⟩
  refine ⟨rfl, rfl, rfl, ?_⟩
  simp only
  split <;> rfl

/-- The decision on a state whose color mode and lookup table are replaced. -/
theorem needsOrderedCompositing_withColoring (s : State) (colorMode : Int)
    (lut : Option vtkScalarsToColors) :
    NeedsOrderedCompositing (withColoring s colorMode lut) = true ↔
      s.Actor.ForceOpaque = false ∧
        (s.Actor.ForceTranslucent = true ∨ opacityStrictlyBetween s ∨
          textureReportsTranslucency s ∨
          (activeColorArray s ∧
            (colorMode = VTK_COLOR_MODE_DIRECT_SCALARS ∨
              ∃ l : vtkScalarsToColors, lut = some l ∧ l.IsOpaque = 0))) :=
  needsOrderedCompositing_eq_true_iff (withColoring s colorMode lut)

/-- C16: the coloring resolver and the translucency policy agree on when a color array is
active. After `UpdateColoringParameters` the mapper's scalar visibility is enabled (1) exactly
when `GetColorArrayName` returns a non-null, non-empty name, and disabled (0) otherwise. That
condition is the one under which `NeedsOrderedCompositing` consults the color mode and the
lookup table: with an active array and no earlier factor the decision is made by them alone,
and without an active array it does not depend on them. Hence, when scalar coloring is
disabled, no color mode and no lookup table make `NeedsOrderedCompositing` true: it is true
only through the force flags, the opacity or the actor texture. -/
theorem coloring_agrees_with_translucency (s : State) :
    ((UpdateColoringParameters s).Mapper.ScalarVisibility = 1 ↔ activeColorArray s) ∧
    ((UpdateColoringParameters s).Mapper.ScalarVisibility = 0 ↔ ¬ activeColorArray s) ∧
    (activeColorArray s → s.Actor.ForceOpaque = false → s.Actor.ForceTranslucent = false →
      ¬ opacityStrictlyBetween s → ¬ textureReportsTranslucency s →
      ∀ (colorMode : Int) (lut : Option vtkScalarsToColors),
        (NeedsOrderedCompositing (withColoring s colorMode lut) = true ↔
          (colorMode = VTK_COLOR_MODE_DIRECT_SCALARS ∨
            ∃ l : vtkScalarsToColors, lut = some l ∧ l.IsOpaque = 0))) ∧
    (¬ activeColorArray s →
      ∀ (colorMode : Int) (lut : Option vtkScalarsToColors),
        NeedsOrderedCompositing (withColoring s colorMode lut) = NeedsOrderedCompositing s) ∧
    ((UpdateColoringParameters s).Mapper.ScalarVisibility = 0 →
      ∀ (colorMode : Int) (lut : Option vtkScalarsToColors),
        (NeedsOrderedCompositing (withColoring (UpdateColoringParameters s) colorMode lut) =
            true ↔
          s.Actor.ForceOpaque = false ∧
            (s.Actor.ForceTranslucent = true ∨ opacityStrictlyBetween s ∨
              textureReportsTranslucency s))) := by
  have hvis := updateColoringParameters_scalarVisibility s
  have hact := activeColorArray_iff s
  have h1 : (UpdateColoringParameters s).Mapper.ScalarVisibility = 1 ↔ activeColorArray s := by
    rw [hvis, ← hact]
    by_cases h : nonEmptyCString (GetColorArrayName s) = true <;> simp [h]
  have h0 : (UpdateColoringParameters s).Mapper.ScalarVisibility = 0 ↔
      ¬ activeColorArray s := by
    rw [hvis, ← hact]
    by_cases h : nonEmptyCString (GetColorArrayName s) = true <;> simp [h]
  refine ⟨h1, h0, ?_, ?_, ?_⟩
  · intro ha hfo hft hop htex colorMode lut
    rw [needsOrderedCompositing_withColoring]
    constructor
    · rintro ⟨_, h | h | h | ⟨_, h⟩⟩
      · rw [hft] at h
        exact Bool.noConfusion h
      · exact absurd h hop
      · exact absurd h htex
      · exact h
    · intro h
      exact ⟨hfo, Or.inr (Or.inr (Or.inr ⟨ha, h⟩))⟩
  · intro hna colorMode lut
    rw [Bool.eq_iff_iff, needsOrderedCompositing_withColoring,
      needsOrderedCompositing_eq_true_iff]
    unfold translucencyPolicy
    constructor
    · rintro ⟨hfo, h | h | h | ⟨ha, _⟩⟩
      · exact ⟨hfo, Or.inl h⟩
      · exact ⟨hfo, Or.inr (Or.inl h)⟩
      · exact ⟨hfo, Or.inr (Or.inr (Or.inl h))⟩
      · exact absurd ha hna
    · rintro ⟨hfo, h | h | h | ⟨ha, _⟩⟩
      · exact ⟨hfo, Or.inl h⟩
      · exact ⟨hfo, Or.inr (Or.inl h)⟩
      · exact ⟨hfo, Or.inr (Or.inr (Or.inl h))⟩
      · exact absurd ha hna
  · intro hz colorMode lut
    have hna : ¬ activeColorArray s := h0.mp hz
    obtain ⟨fA, fT, fI, fO⟩ := updateColoringParameters_frame s
    have hna2 : ¬ activeColorArray (UpdateColoringParameters s) := by
      unfold activeColorArray GetColorArrayName GetInputArrayInformation at hna ⊢
      rw [fI]
      exact hna
    have hop : opacityStrictlyBetween (UpdateColoringParameters s) ↔
        opacityStrictlyBetween s := by
      unfold opacityStrictlyBetween
      rw [fO]
    have htex : textureReportsTranslucency (UpdateColoringParameters s) ↔
        textureReportsTranslucency s := by
      unfold textureReportsTranslucency
      rw [fA, fT]
    rw [needsOrderedCompositing_withColoring, fA, hop, htex]
    constructor
    · rintro ⟨hfo, h | h | h | ⟨ha, _⟩⟩
      · exact ⟨hfo, Or.inl h⟩
      · exact ⟨hfo, Or.inr (Or.inl h)⟩
      · exact ⟨hfo, Or.inr (Or.inr h)⟩
      · exact absurd ha hna2
    · rintro ⟨hfo, h | h | h⟩
      · exact ⟨hfo, Or.inl h⟩
      · exact ⟨hfo, Or.inr (Or.inl h)⟩
      · exact ⟨hfo, Or.inr (Or.inr (Or.inl h))⟩

/-- Witness for C16: with no color array selected, scalar visibility ends at 0 and direct
scalars with a lookup table that is not opaque leave the decision as it was; with the array
"temperature" active and no other factor, mapped scalars through an opaque lookup table are
what the decision consults. -/
theorem coloring_agrees_with_translucency_witness :
    (UpdateColoringParameters mappedTranslucentLutNoArray).Mapper.ScalarVisibility = 0 ∧
      NeedsOrderedCompositing
          (withColoring mappedTranslucentLutNoArray VTK_COLOR_MODE_DIRECT_SCALARS
            (some { IsOpaque := 0 })) =
        NeedsOrderedCompositing mappedTranslucentLutNoArray ∧
      (NeedsOrderedCompositing
          (withColoring (UpdateColoringParameters mappedTranslucentLutNoArray)
            VTK_COLOR_MODE_DIRECT_SCALARS (some { IsOpaque := 0 })) = true ↔
        mappedTranslucentLutNoArray.Actor.ForceOpaque = false ∧
          (mappedTranslucentLutNoArray.Actor.ForceTranslucent = true ∨
            opacityStrictlyBetween mappedTranslucentLutNoArray ∨
            textureReportsTranslucency mappedTranslucentLutNoArray)) ∧
      (NeedsOrderedCompositing
          (withColoring mappedTranslucentLutState VTK_COLOR_MODE_MAP_SCALARS
            (some { IsOpaque := 1 })) = true ↔
        (VTK_COLOR_MODE_MAP_SCALARS = VTK_COLOR_MODE_DIRECT_SCALARS ∨
          ∃ l : vtkScalarsToColors, some { IsOpaque := 1 } = some l ∧ l.IsOpaque = 0)) :=
  have hna : ¬ activeColorArray mappedTranslucentLutNoArray :=
    fun ⟨_, hn, _⟩ => Option.noConfusion hn
  have h := coloring_agrees_with_translucency mappedTranslucentLutNoArray
  ⟨h.2.1.mpr hna,
    h.2.2.2.1 hna VTK_COLOR_MODE_DIRECT_SCALARS (some { IsOpaque := 0 }),
    h.2.2.2.2 (h.2.1.mpr hna) VTK_COLOR_MODE_DIRECT_SCALARS (some { IsOpaque := 0 }),
    (coloring_agrees_with_translucency mappedTranslucentLutState).2.2.1
      ⟨"temperature", rfl, by decide⟩ rfl rfl
      (fun ⟨q, hq, _, h1⟩ => by
        injection hq with hq
        rw [← hq] at h1
        exact lt_irrefl _ h1)
      (fun ⟨_, ht, _⟩ => Option.noConfusion ht)
      VTK_COLOR_MODE_MAP_SCALARS (some { IsOpaque := 1 })⟩

end HTG
